import Mathlib

/-!
Verification of `d2/train_net.py` (DETR detectron2 training script).

We shallowly embed the locally defined logic of the script:
  * `Trainer.build_optimizer`'s parameter-group construction loop
    (deduplication via a seen-set, backbone learning-rate scaling,
    weight decay assignment),
  * its optimizer selection and gradient-clipping wrapping logic,
  * `Trainer.build_train_loader`'s conditional mapper selection,
  * `Trainer.build_evaluator`'s output-directory defaulting,
  * `setup`'s config layering and freezing.

Tensors are modelled by an identity (`Nat`) plus their `requires_grad`
flag; Python's identity-based set membership on `torch.nn.Parameter`
becomes membership on these records.  Learning rates, weight decay and
clip values are modelled as rationals.  External framework calls
(detectron2 / torch) are modelled as records capturing the arguments the
script passes to them, which is all the claims are about.
-/

/-- A `torch.nn.parameter.Parameter` as far as the script observes it:
an object identity and its `requires_grad` flag.  Python set membership
on parameter tensors is identity-based, which record equality models. -/
structure Param where
  id : Nat
  requires_grad : Bool
deriving DecidableEq, Repr

/-- One entry of the `params: List[Dict[str, Any]]` list built by
`Trainer.build_optimizer`: `{"params": [value], "lr": lr,
"weight_decay": weight_decay}`. -/
structure ParamGroup where
  params : List Param
  lr : ℚ
  weight_decay : ℚ
deriving DecidableEq, Repr

/-- The configuration fields of `cfg` read by the embedded functions,
flattened (`cfg.SOLVER.BASE_LR` becomes `SOLVER_BASE_LR`, etc.). -/
structure Config where
  SOLVER_BASE_LR : ℚ
  SOLVER_WEIGHT_DECAY : ℚ
  SOLVER_BACKBONE_MULTIPLIER : ℚ
  SOLVER_MOMENTUM : ℚ
  SOLVER_OPTIMIZER : String
  SOLVER_CLIP_ENABLED : Bool
  SOLVER_CLIP_TYPE : String
  SOLVER_CLIP_VALUE : ℚ
  MODEL_META_ARCHITECTURE : String
  OUTPUT_DIR : String
deriving DecidableEq, Repr

/-- Whether `pat` occurs at the head of `s` (character-list version). -/
def strLeads : List Char → List Char → Bool
  | [], _ => true
  | _ :: _, [] => false
  | a :: as, b :: bs => a == b && strLeads as bs

/-- Whether `pat` occurs contiguously anywhere in `s`, as Python's
`pat in s` substring test on strings. -/
def strContainsSub (pat : List Char) : List Char → Bool
  | [] => pat.isEmpty
  | c :: rest => strLeads pat (c :: rest) || strContainsSub pat rest

/-- Python's `"backbone" in key`. -/
def hasBackbone (key : String) : Bool :=
  strContainsSub "backbone".toList key.toList

/-- The loop body of `Trainer.build_optimizer` over
`model.named_parameters(recurse=True)`: skip parameters without
gradient tracking, skip parameters already in the seen-set `memo`,
otherwise emit a singleton parameter group whose learning rate is the
base rate, multiplied by the backbone multiplier when the name contains
`"backbone"`, with the configured weight decay. -/
def buildParamsAux (cfg : Config) : List (String × Param) → List Param → List ParamGroup
  | [], _ => []
  | (key, value) :: rest, memo =>
    if !value.requires_grad then
      buildParamsAux cfg rest memo
    else if value ∈ memo then
      buildParamsAux cfg rest memo
    else
      let lr := cfg.SOLVER_BASE_LR
      let weight_decay := cfg.SOLVER_WEIGHT_DECAY
      let lr := if hasBackbone key then lr * cfg.SOLVER_BACKBONE_MULTIPLIER else lr
      { params := [value], lr := lr, weight_decay := weight_decay }
        :: buildParamsAux cfg rest (value :: memo)

/-- The parameter-group list `params` built by `Trainer.build_optimizer`
from the `named_parameters` iteration of the model. -/
def Trainer.buildOptimizerParams (cfg : Config) (named_parameters : List (String × Param)) :
    List ParamGroup :=
  buildParamsAux cfg named_parameters []

/-- Specification-side companion of the loop: the subsequence of
`(name, parameter)` pairs that survive the two skips, i.e. the first
occurrence of every distinct trainable parameter tensor, in iteration
order. -/
def firstTrainableAux : List (String × Param) → List Param → List (String × Param)
  | [], _ => []
  | (key, value) :: rest, memo =>
    if !value.requires_grad then
      firstTrainableAux rest memo
    else if value ∈ memo then
      firstTrainableAux rest memo
    else
      (key, value) :: firstTrainableAux rest (value :: memo)

/-- First occurrences of distinct trainable parameters, in order. -/
def firstTrainableOccs (named_parameters : List (String × Param)) : List (String × Param) :=
  firstTrainableAux named_parameters []

/-- Specification-side group construction for one surviving
`(name, parameter)` pair: singleton group, backbone-scaled learning
rate, configured weight decay. -/
def mkGroup (cfg : Config) (kv : String × Param) : ParamGroup :=
  { params := [kv.2]
    lr := if hasBackbone kv.1 then cfg.SOLVER_BASE_LR * cfg.SOLVER_BACKBONE_MULTIPLIER
          else cfg.SOLVER_BASE_LR
    weight_decay := cfg.SOLVER_WEIGHT_DECAY }

theorem buildParamsAux_eq_map (cfg : Config) :
    ∀ (l : List (String × Param)) (memo : List Param),
      buildParamsAux cfg l memo = (firstTrainableAux l memo).map (mkGroup cfg) := by
  intro l
  induction l with
  | nil => intro memo; rfl
  | cons kv rest ih =>
    intro memo
    obtain ⟨key, value⟩ := kv
    by_cases hg : value.requires_grad
    · by_cases hm : value ∈ memo
      · simp [buildParamsAux, firstTrainableAux, hg, hm, ih]
      · simp [buildParamsAux, firstTrainableAux, hg, hm, ih, mkGroup]
    · simp [buildParamsAux, firstTrainableAux, hg, ih]

example :
    Trainer.buildOptimizerParams
      { SOLVER_BASE_LR := 1, SOLVER_WEIGHT_DECAY := 2, SOLVER_BACKBONE_MULTIPLIER := 3,
        SOLVER_MOMENTUM := 0, SOLVER_OPTIMIZER := "SGD", SOLVER_CLIP_ENABLED := false,
        SOLVER_CLIP_TYPE := "norm", SOLVER_CLIP_VALUE := 0, MODEL_META_ARCHITECTURE := "Detr",
        OUTPUT_DIR := "out" }
      [("backbone.w", ⟨0, true⟩), ("head.w", ⟨1, true⟩), ("frozen.w", ⟨2, false⟩),
       ("alias.w", ⟨0, true⟩)]
    = [{ params := [⟨0, true⟩], lr := 1 * 3, weight_decay := 2 },
       { params := [⟨1, true⟩], lr := 1, weight_decay := 2 }] := by
  rfl

/-- The optimizer class chosen by `Trainer.build_optimizer`:
`torch.optim.SGD` (constructed with a momentum) or `torch.optim.AdamW`. -/
inductive OptCore where
  | SGD (momentum : ℚ)
  | AdamW
deriving DecidableEq, Repr

/-- The optimizer object returned by `Trainer.build_optimizer`, as the
claims observe it: the underlying optimizer class with its constructor
arguments (parameter groups and base learning rate), plus which of the
two gradient-clipping wrappers were applied around it.
`fullModelClip` records wrapping by the locally defined
`FullModelGradientClippingOptimizer` subclass; `perGroupClip` records
that the optimizer was handed to detectron2's
`maybe_add_gradient_clipping` (the framework's per-parameter-group
clipping wrapper). -/
structure Optimizer where
  core : OptCore
  param_groups : List ParamGroup
  lr : ℚ
  fullModelClip : Bool
  perGroupClip : Bool
deriving DecidableEq, Repr

/-- The `enable` condition computed inside
`maybe_add_full_model_gradient_clipping`:
`cfg.SOLVER.CLIP_GRADIENTS.ENABLED and
 cfg.SOLVER.CLIP_GRADIENTS.CLIP_TYPE == "full_model" and
 clip_norm_val > 0.0`. -/
def fullModelClipEnable (cfg : Config) : Bool :=
  cfg.SOLVER_CLIP_ENABLED
    && (cfg.SOLVER_CLIP_TYPE == "full_model")
    && decide ((0 : ℚ) < cfg.SOLVER_CLIP_VALUE)

/-- Modelled framework call: detectron2's
`maybe_add_gradient_clipping(cfg, optimizer)` — the per-parameter-group
clipping wrapper supplied by the framework.  We model the hand-off
itself: the returned optimizer is marked as having gone through the
framework's per-group clipping path. -/
def maybe_add_gradient_clipping (_cfg : Config) (optimizer : Optimizer) : Optimizer :=
  { optimizer with perGroupClip := true }

/-- `Trainer.build_optimizer`: builds the parameter groups, constructs
the optimizer named by `cfg.SOLVER.OPTIMIZER` (SGD with momentum, or
AdamW), wrapping its class with `FullModelGradientClippingOptimizer`
exactly when the `enable` condition of
`maybe_add_full_model_gradient_clipping` holds; raises
`NotImplementedError(f"no optimizer type \x7boptimizer_type\x7d")` for
any other optimizer string; finally, when `CLIP_TYPE` is not
`"full_model"`, passes the optimizer through detectron2's
`maybe_add_gradient_clipping`. -/
def Trainer.build_optimizer (cfg : Config) (named_parameters : List (String × Param)) :
    Except String Optimizer := do
  let params := Trainer.buildOptimizerParams cfg named_parameters
  let enable := fullModelClipEnable cfg
  let optimizer_type := cfg.SOLVER_OPTIMIZER
  let optimizer ←
    if optimizer_type == "SGD" then
      Except.ok { core := OptCore.SGD cfg.SOLVER_MOMENTUM, param_groups := params,
                  lr := cfg.SOLVER_BASE_LR, fullModelClip := enable, perGroupClip := false }
    else if optimizer_type == "ADAMW" then
      Except.ok { core := OptCore.AdamW, param_groups := params,
                  lr := cfg.SOLVER_BASE_LR, fullModelClip := enable, perGroupClip := false }
    else
      Except.error ("no optimizer type " ++ optimizer_type)
  let optimizer :=
    if !(cfg.SOLVER_CLIP_TYPE == "full_model") then maybe_add_gradient_clipping cfg optimizer
    else optimizer
  return optimizer

/-- The `DetrDatasetMapper(cfg, True)` object, as a record of its
constructor arguments. -/
structure DetrDatasetMapper where
  cfg : Config
  is_train : Bool
deriving DecidableEq, Repr

/-- Modelled framework call: detectron2's
`build_detection_train_loader(cfg, mapper=mapper)`, recorded as the
arguments the script passes to it. -/
structure TrainLoader where
  cfg : Config
  mapper : Option DetrDatasetMapper
deriving DecidableEq, Repr

/-- `Trainer.build_train_loader`: uses a `DetrDatasetMapper(cfg, True)`
when `"Detr" == cfg.MODEL.META_ARCHITECTURE`, otherwise no mapper, and
hands both to the framework's loader builder. -/
def Trainer.build_train_loader (cfg : Config) : TrainLoader :=
  let mapper :=
    if "Detr" == cfg.MODEL_META_ARCHITECTURE then
      some { cfg := cfg, is_train := true }
    else
      none
  { cfg := cfg, mapper := mapper }

/-- Python's `os.path.join(a, b)` for POSIX paths, as the script uses
it on `cfg.OUTPUT_DIR` and `"inference"`. -/
def pathJoin (a b : String) : String :=
  if b.startsWith "/" then b
  else if a == "" || a.endsWith "/" then a ++ b
  else a ++ "/" ++ b

/-- Modelled framework call: `COCOEvaluator(dataset_name, cfg, True,
output_folder)`, recorded as its constructor arguments (the third
positional argument is the `distributed` flag). -/
structure COCOEvaluator where
  dataset_name : String
  cfg : Config
  distributed : Bool
  output_dir : String
deriving DecidableEq, Repr

/-- `Trainer.build_evaluator`: defaults the output folder to
`os.path.join(cfg.OUTPUT_DIR, "inference")` when none is given, then
returns `COCOEvaluator(dataset_name, cfg, True, output_folder)`. -/
def Trainer.build_evaluator (cfg : Config) (dataset_name : String)
    (output_folder : Option String) : COCOEvaluator :=
  let output_folder :=
    match output_folder with
    | none => pathJoin cfg.OUTPUT_DIR "inference"
    | some f => f
  { dataset_name := dataset_name, cfg := cfg, distributed := true, output_dir := output_folder }

/-- One layer of configuration applied by `setup`, in application
order: framework defaults (`get_cfg`), the detector-specific extension
(`add_detr_config`), the user config file (`merge_from_file`), the
command-line overrides (`merge_from_list`). -/
inductive CfgLayer where
  | defaults
  | detrExtension
  | fromFile (config_file : String)
  | fromList (opts : List String)
deriving DecidableEq, Repr

/-- The configuration object assembled by `setup`, modelled abstractly
as the ordered list of layers merged into it plus its frozen flag. -/
structure CfgState where
  layers : List CfgLayer
  frozen : Bool
deriving DecidableEq, Repr

/-- Modelled from the spec: detectron2's `get_cfg()` returns a fresh,
mutable configuration holding the framework defaults. -/
def get_cfg : CfgState :=
  { layers := [CfgLayer.defaults], frozen := false }

/-- Modelled from the spec: `add_detr_config(cfg)` (defined in
`d2.detr`, not present under `src/`) merges the detector-specific
config extension into `cfg`; like every CfgNode mutation it fails on a
frozen config. -/
def add_detr_config (cfg : CfgState) : Except String CfgState :=
  if cfg.frozen then Except.error "frozen"
  else Except.ok { cfg with layers := cfg.layers ++ [CfgLayer.detrExtension] }

/-- Modelled from the spec: yacs/detectron2 `cfg.merge_from_file(f)`
merges the user-supplied config file; mutation fails on a frozen
config. -/
def CfgState.merge_from_file (cfg : CfgState) (config_file : String) : Except String CfgState :=
  if cfg.frozen then Except.error "frozen"
  else Except.ok { cfg with layers := cfg.layers ++ [CfgLayer.fromFile config_file] }

/-- Modelled from the spec: yacs/detectron2 `cfg.merge_from_list(opts)`
merges the command-line `KEY VALUE` overrides; mutation fails on a
frozen config. -/
def CfgState.merge_from_list (cfg : CfgState) (opts : List String) : Except String CfgState :=
  if cfg.frozen then Except.error "frozen"
  else Except.ok { cfg with layers := cfg.layers ++ [CfgLayer.fromList opts] }

/-- Modelled from the spec: yacs/detectron2 `cfg.freeze()` marks the
config immutable. -/
def CfgState.freeze (cfg : CfgState) : CfgState :=
  { cfg with frozen := true }

/-- The command-line arguments `setup` reads: the config-file path and
the trailing `KEY VALUE` override list. -/
structure Args where
  config_file : String
  opts : List String
deriving DecidableEq, Repr

/-- `setup(args)`: `get_cfg`, then `add_detr_config`, then
`merge_from_file(args.config_file)`, then `merge_from_list(args.opts)`,
then `freeze` (followed by `default_setup`, which performs environment
setup and does not alter the config). -/
def setup (args : Args) : Except String CfgState := do
  let cfg := get_cfg
  let cfg ← add_detr_config cfg
  let cfg ← cfg.merge_from_file args.config_file
  let cfg ← cfg.merge_from_list args.opts
  let cfg := cfg.freeze
  return cfg

/-- The configuration `setup` produces, written out: the four layers in
application order, frozen. -/
def setupCfg (args : Args) : CfgState :=
  { layers := [CfgLayer.defaults, CfgLayer.detrExtension, CfgLayer.fromFile args.config_file,
               CfgLayer.fromList args.opts]
    frozen := true }

theorem firstTrainableAux_mem :
    ∀ (l : List (String × Param)) (memo : List Param) (kv : String × Param),
      kv ∈ firstTrainableAux l memo → kv.2.requires_grad = true ∧ kv.2 ∉ memo := by
  intro l
  induction l with
  | nil => intro memo kv h; simp [firstTrainableAux] at h
  | cons hd rest ih =>
    intro memo kv h
    obtain ⟨key, value⟩ := hd
    by_cases hg : value.requires_grad
    · by_cases hm : value ∈ memo
      · simp only [firstTrainableAux, hg, Bool.not_true, Bool.false_eq_true, if_false,
          if_pos hm] at h
        exact ih memo kv h
      · simp only [firstTrainableAux, hg, Bool.not_true, Bool.false_eq_true, if_false,
          if_neg hm, List.mem_cons] at h
        rcases h with h | h
        · subst h; exact ⟨hg, hm⟩
        · have h' := ih (value :: memo) kv h
          exact ⟨h'.1, fun hmem => h'.2 (List.mem_cons_of_mem _ hmem)⟩
    · simp only [firstTrainableAux, Bool.not_eq_true] at hg
      simp only [firstTrainableAux, hg, Bool.not_false, if_true] at h
      exact ih memo kv h

theorem firstTrainableAux_find :
    ∀ (l : List (String × Param)) (memo : List Param) (kv : String × Param),
      kv ∈ firstTrainableAux l memo →
        l.find? (fun x => x.2 == kv.2) = some kv := by
  intro l
  induction l with
  | nil => intro memo kv h; simp [firstTrainableAux] at h
  | cons hd rest ih =>
    intro memo kv h
    obtain ⟨key, value⟩ := hd
    have hmemkv := firstTrainableAux_mem _ _ _ h
    by_cases hg : value.requires_grad
    · by_cases hm : value ∈ memo
      · simp only [firstTrainableAux, hg, Bool.not_true, Bool.false_eq_true, if_false,
          if_pos hm] at h
        have hne : value ≠ kv.2 := fun e => hmemkv.2 (e ▸ hm)
        rw [List.find?_cons_of_neg, ih memo kv h]
        simpa using hne
      · simp only [firstTrainableAux, hg, Bool.not_true, Bool.false_eq_true, if_false,
          if_neg hm, List.mem_cons] at h
        rcases h with h | h
        · subst h
          rw [List.find?_cons_of_pos]
          simp
        · have h' := firstTrainableAux_mem _ _ _ h
          have hne : value ≠ kv.2 := fun e => h'.2 (e ▸ List.mem_cons_self _ _)
          rw [List.find?_cons_of_neg, ih (value :: memo) kv h]
          simpa using hne
    · simp only [Bool.not_eq_true] at hg
      simp only [firstTrainableAux, hg, Bool.not_false, if_true] at h
      have hne : value ≠ kv.2 := by
        intro e
        rw [e, hmemkv.1] at hg
        simp at hg
      rw [List.find?_cons_of_neg, ih memo kv h]
      simpa using hne

theorem buildParamsAux_count (cfg : Config) (p : Param) :
    ∀ (l : List (String × Param)) (memo : List Param),
      ((buildParamsAux cfg l memo).filter (fun g => decide (p ∈ g.params))).length
        = if p.requires_grad = true ∧ p ∉ memo ∧ p ∈ l.map Prod.snd then 1 else 0 := by
  intro l
  induction l with
  | nil => intro memo; simp [buildParamsAux]
  | cons hd rest ih =>
    intro memo
    obtain ⟨key, value⟩ := hd
    by_cases hg : value.requires_grad
    · by_cases hm : value ∈ memo
      · simp only [buildParamsAux, hg, Bool.not_true, Bool.false_eq_true, if_false, if_pos hm]
        rw [ih memo]
        by_cases hp : p = value
        · subst hp
          simp [hm]
        · simp only [List.map_cons, List.mem_cons, hp, false_or]
      · simp only [buildParamsAux, hg, Bool.not_true, Bool.false_eq_true, if_false, if_neg hm]
        rw [List.filter_cons]
        by_cases hp : p = value
        · subst hp
          rw [if_pos (by simp), List.length_cons, ih (p :: memo)]
          have hpm : p ∈ p :: memo := List.mem_cons_self _ _
          simp [hg, hm, hpm]
        · rw [if_neg (by simp [hp]), ih (value :: memo)]
          simp only [List.map_cons, List.mem_cons, hp, false_or]
    · simp only [Bool.not_eq_true] at hg
      simp only [buildParamsAux, hg, Bool.not_false, if_true]
      rw [ih memo]
      by_cases hp : p = value
      · subst hp
        simp [hg]
      · simp only [List.map_cons, List.mem_cons, hp, false_or]

theorem build_optimizer_ok_flags (cfg : Config) (l : List (String × Param)) (opt : Optimizer)
    (h : Trainer.build_optimizer cfg l = Except.ok opt) :
    opt.fullModelClip = fullModelClipEnable cfg
      ∧ opt.perGroupClip = !(cfg.SOLVER_CLIP_TYPE == "full_model") := by
  by_cases h1 : cfg.SOLVER_OPTIMIZER == "SGD"
  · by_cases hc : cfg.SOLVER_CLIP_TYPE == "full_model"
    · simp [Trainer.build_optimizer, h1, hc, maybe_add_gradient_clipping] at h
      subst h
      simp [hc]
    · simp [Trainer.build_optimizer, h1, hc, maybe_add_gradient_clipping] at h
      subst h
      simp [hc]
  · by_cases h2 : cfg.SOLVER_OPTIMIZER == "ADAMW"
    · by_cases hc : cfg.SOLVER_CLIP_TYPE == "full_model"
      · simp [Trainer.build_optimizer, h1, h2, hc, maybe_add_gradient_clipping] at h
        subst h
        simp [hc]
      · simp [Trainer.build_optimizer, h1, h2, hc, maybe_add_gradient_clipping] at h
        subst h
        simp [hc]
    · simp [Trainer.build_optimizer, h1, h2] at h

/-- A sample configuration for concrete witnesses: SGD, no clipping. -/
def cfgSample : Config :=
  { SOLVER_BASE_LR := 1, SOLVER_WEIGHT_DECAY := 2, SOLVER_BACKBONE_MULTIPLIER := 3,
    SOLVER_MOMENTUM := 4, SOLVER_OPTIMIZER := "SGD", SOLVER_CLIP_ENABLED := false,
    SOLVER_CLIP_TYPE := "norm", SOLVER_CLIP_VALUE := 0,
    MODEL_META_ARCHITECTURE := "Detr", OUTPUT_DIR := "out" }

/-- A sample `named_parameters` iteration: a trainable tensor first seen
under a non-backbone name, aliased later, plus a frozen tensor. -/
def paramsSample : List (String × Param) :=
  [("head.w", ⟨0, true⟩), ("backbone.alias", ⟨0, true⟩), ("frozen.w", ⟨1, false⟩)]

/-- The single parameter group `cfgSample`/`paramsSample` produce. -/
def groupSample : ParamGroup := { params := [⟨0, true⟩], lr := 1, weight_decay := 2 }

/-- A configuration with `CLIP_TYPE = "full_model"` but clipping
disabled. -/
def cfgNoClip : Config :=
  { cfgSample with SOLVER_CLIP_TYPE := "full_model", SOLVER_CLIP_VALUE := 1 }

/-- The optimizer `cfgNoClip` yields on an empty model. -/
def optNoClip : Optimizer :=
  { core := OptCore.SGD 4, param_groups := [], lr := 1,
    fullModelClip := false, perGroupClip := false }

/-- The optimizer `cfgSample` yields on an empty model. -/
def optSGDSample : Optimizer :=
  { core := OptCore.SGD 4, param_groups := [], lr := 1,
    fullModelClip := false, perGroupClip := true }

/-- A configuration requesting an unsupported optimizer type. -/
def cfgAdam : Config := { cfgSample with SOLVER_OPTIMIZER := "ADAM" }

/-- The two clipping-wrapper flags of a `build_optimizer` result. -/
def clipFlags (r : Except String Optimizer) : Except String (Bool × Bool) :=
  r.map (fun o => (o.fullModelClip, o.perGroupClip))

/-- C1: for every model, `Trainer.build_optimizer` emits exactly one
parameter group containing a given parameter tensor when that tensor is
trainable and occurs in the `named_parameters` iteration (under however
many names), and none otherwise — never two groups for the same
tensor. -/
theorem build_optimizer_one_group_per_trainable_param
    (cfg : Config) (named_parameters : List (String × Param)) (p : Param) :
    ((Trainer.buildOptimizerParams cfg named_parameters).filter
        (fun g => decide (p ∈ g.params))).length
      = if p.requires_grad = true ∧ p ∈ named_parameters.map Prod.snd then 1 else 0 := by
  rw [Trainer.buildOptimizerParams, buildParamsAux_count]
  simp only [List.not_mem_nil, not_false_iff, true_and]

/-- C2: the groups emitted by `Trainer.build_optimizer` are exactly one
per surviving `(name, parameter)` pair; a group whose name contains
`"backbone"` carries learning rate `BASE_LR * BACKBONE_MULTIPLIER`,
every other group carries exactly `BASE_LR`, and all groups carry
weight decay `WEIGHT_DECAY`. -/
theorem build_optimizer_group_lr_weight_decay
    (cfg : Config) (named_parameters : List (String × Param)) :
    Trainer.buildOptimizerParams cfg named_parameters
      = (firstTrainableOccs named_parameters).map (fun kv =>
          { params := [kv.2]
            lr := if hasBackbone kv.1 then cfg.SOLVER_BASE_LR * cfg.SOLVER_BACKBONE_MULTIPLIER
                  else cfg.SOLVER_BASE_LR
            weight_decay := cfg.SOLVER_WEIGHT_DECAY }) := by
  rw [Trainer.buildOptimizerParams, firstTrainableOccs, buildParamsAux_eq_map]
  rfl

/-- C3 counterexample: with `CLIP_TYPE = "full_model"` but
`ENABLED = false`, the optimizer returned by `Trainer.build_optimizer`
carries neither the full-model clipping wrapper nor the framework's
per-parameter-group clipping wrapper — contradicting the claim that
otherwise the per-group wrapper is applied instead. -/
theorem build_optimizer_clipping_claim_counterexample :
    clipFlags (Trainer.build_optimizer cfgNoClip []) = Except.ok (false, false)
      ∧ cfgNoClip.SOLVER_CLIP_ENABLED = false
      ∧ cfgNoClip.SOLVER_CLIP_TYPE = "full_model" :=
  ⟨rfl, rfl, rfl⟩

/-- C3 (amended): the optimizer returned by `Trainer.build_optimizer`
carries the full-model clipping wrapper exactly when `ENABLED`,
`CLIP_TYPE = "full_model"` and `CLIP_VALUE > 0` all hold, and is passed
through the framework's per-parameter-group clipping wrapper exactly
when `CLIP_TYPE` differs from `"full_model"`; the two wrappers are
never both applied. -/
theorem build_optimizer_clipping_exclusive
    (cfg : Config) (named_parameters : List (String × Param)) (opt : Optimizer)
    (h : Trainer.build_optimizer cfg named_parameters = Except.ok opt) :
    opt.fullModelClip = fullModelClipEnable cfg
      ∧ opt.perGroupClip = !(cfg.SOLVER_CLIP_TYPE == "full_model")
      ∧ ¬(opt.fullModelClip = true ∧ opt.perGroupClip = true) := by
  obtain ⟨h1, h2⟩ := build_optimizer_ok_flags cfg named_parameters opt h
  refine ⟨h1, h2, ?_⟩
  rintro ⟨ha, hb⟩
  rw [h1] at ha
  rw [h2, Bool.not_eq_true'] at hb
  simp [fullModelClipEnable, hb] at ha

theorem build_optimizer_clipping_exclusive_witness :
    optSGDSample.fullModelClip = fullModelClipEnable cfgSample
      ∧ optSGDSample.perGroupClip = !(cfgSample.SOLVER_CLIP_TYPE == "full_model")
      ∧ ¬(optSGDSample.fullModelClip = true ∧ optSGDSample.perGroupClip = true) :=
  build_optimizer_clipping_exclusive cfgSample [] optSGDSample (by rfl)

/-- C4: for every optimizer-type string other than `"SGD"` and
`"ADAMW"`, `Trainer.build_optimizer` fails with an error naming the
exact unsupported string, and returns no optimizer. -/
theorem build_optimizer_unknown_type_error
    (cfg : Config) (named_parameters : List (String × Param))
    (h1 : cfg.SOLVER_OPTIMIZER ≠ "SGD") (h2 : cfg.SOLVER_OPTIMIZER ≠ "ADAMW") :
    Trainer.build_optimizer cfg named_parameters
      = Except.error ("no optimizer type " ++ cfg.SOLVER_OPTIMIZER) := by
  simp [Trainer.build_optimizer, h1, h2]

theorem build_optimizer_unknown_type_error_witness :
    Trainer.build_optimizer cfgAdam []
      = Except.error ("no optimizer type " ++ cfgAdam.SOLVER_OPTIMIZER) :=
  build_optimizer_unknown_type_error cfgAdam [] (by decide) (by decide)

/-- C5: no parameter with gradient tracking disabled appears in any
group emitted by `Trainer.build_optimizer`. -/
theorem build_optimizer_no_frozen_params
    (cfg : Config) (named_parameters : List (String × Param)) (g : ParamGroup)
    (hg : g ∈ Trainer.buildOptimizerParams cfg named_parameters)
    (p : Param) (hp : p ∈ g.params) :
    p.requires_grad = true := by
  rw [Trainer.buildOptimizerParams, buildParamsAux_eq_map] at hg
  obtain ⟨kv, hkv, rfl⟩ := List.mem_map.mp hg
  have hmem := firstTrainableAux_mem _ _ _ hkv
  have hps : p = kv.2 := by simpa [mkGroup] using hp
  rw [hps]
  exact hmem.1

theorem build_optimizer_no_frozen_params_witness :
    (⟨0, true⟩ : Param).requires_grad = true :=
  build_optimizer_no_frozen_params cfgSample paramsSample groupSample (by decide)
    ⟨0, true⟩ (by decide)

/-- C6: when `CLIP_TYPE = "full_model"` but clipping is disabled or the
clip value is not positive, `Trainer.build_optimizer` applies neither
clipping wrapper. -/
theorem build_optimizer_full_model_disabled_no_clipping
    (cfg : Config) (named_parameters : List (String × Param)) (opt : Optimizer)
    (h1 : cfg.SOLVER_CLIP_TYPE = "full_model")
    (h2 : cfg.SOLVER_CLIP_ENABLED = false ∨ ¬((0 : ℚ) < cfg.SOLVER_CLIP_VALUE))
    (h3 : Trainer.build_optimizer cfg named_parameters = Except.ok opt) :
    opt.fullModelClip = false ∧ opt.perGroupClip = false := by
  obtain ⟨hf, hp⟩ := build_optimizer_ok_flags cfg named_parameters opt h3
  constructor
  · rw [hf]
    rcases h2 with h | h
    · simp [fullModelClipEnable, h]
    · simp [fullModelClipEnable, h]
  · rw [hp, h1]
    simp

theorem build_optimizer_full_model_disabled_no_clipping_witness :
    optNoClip.fullModelClip = false ∧ optNoClip.perGroupClip = false :=
  build_optimizer_full_model_disabled_no_clipping cfgNoClip [] optNoClip rfl
    (Or.inl rfl) (by rfl)

/-- C7: `setup` layers the framework defaults, the detector-specific
extension, the user config file and the command-line overrides in that
order, and returns the configuration frozen, after which every mutation
fails. -/
theorem setup_layers_order_and_frozen (args : Args) :
    setup args = Except.ok (setupCfg args)
      ∧ (setupCfg args).frozen = true
      ∧ (setupCfg args).layers
          = [CfgLayer.defaults, CfgLayer.detrExtension, CfgLayer.fromFile args.config_file,
             CfgLayer.fromList args.opts]
      ∧ (∀ f, (setupCfg args).merge_from_file f = Except.error "frozen")
      ∧ (∀ opts, (setupCfg args).merge_from_list opts = Except.error "frozen")
      ∧ add_detr_config (setupCfg args) = Except.error "frozen" :=
  ⟨rfl, rfl, rfl, fun _ => rfl, fun _ => rfl, rfl⟩

/-- C8: `Trainer.build_train_loader` passes a `DetrDatasetMapper(cfg,
True)` to the framework's loader builder exactly when the configured
architecture is `"Detr"`, and no mapper otherwise. -/
theorem build_train_loader_mapper_iff_detr (cfg : Config) :
    (Trainer.build_train_loader cfg).mapper
      = (if cfg.MODEL_META_ARCHITECTURE = "Detr"
         then some { cfg := cfg, is_train := true } else none) := by
  by_cases h : cfg.MODEL_META_ARCHITECTURE = "Detr"
  · simp [Trainer.build_train_loader, h]
  · have h' : ("Detr" == cfg.MODEL_META_ARCHITECTURE) = false :=
      beq_eq_false_iff_ne.mpr (fun e => h e.symm)
    simp [Trainer.build_train_loader, h, h']

/-- C9: with no output folder, `Trainer.build_evaluator` returns a COCO
evaluator scoped to `os.path.join(cfg.OUTPUT_DIR, "inference")`; with a
folder given, that folder is used unchanged. -/
theorem build_evaluator_output_folder (cfg : Config) (dataset_name : String) :
    Trainer.build_evaluator cfg dataset_name none
        = { dataset_name := dataset_name, cfg := cfg, distributed := true,
            output_dir := pathJoin cfg.OUTPUT_DIR "inference" }
      ∧ ∀ f, Trainer.build_evaluator cfg dataset_name (some f)
        = { dataset_name := dataset_name, cfg := cfg, distributed := true, output_dir := f } :=
  ⟨rfl, fun _ => rfl⟩

/-- C10: the emitted group sequence corresponds, in order, to the first
occurrences of the distinct trainable tensors, and each group's
learning rate is decided by the first name under which its tensor
appears in the iteration — scaled by the backbone multiplier exactly
when that first name contains `"backbone"`, regardless of later
aliases. -/
theorem build_optimizer_first_occurrence_semantics
    (cfg : Config) (named_parameters : List (String × Param)) :
    ((Trainer.buildOptimizerParams cfg named_parameters).map ParamGroup.params
        = (firstTrainableOccs named_parameters).map (fun kv => [kv.2]))
    ∧ ∀ g ∈ Trainer.buildOptimizerParams cfg named_parameters, ∀ p ∈ g.params,
        ∃ key, named_parameters.find? (fun kv => kv.2 == p) = some (key, p)
          ∧ g.lr = (if hasBackbone key then cfg.SOLVER_BASE_LR * cfg.SOLVER_BACKBONE_MULTIPLIER
                    else cfg.SOLVER_BASE_LR) := by
  constructor
  · rw [Trainer.buildOptimizerParams, firstTrainableOccs, buildParamsAux_eq_map, List.map_map]
    rfl
  · intro g hg p hp
    rw [Trainer.buildOptimizerParams, buildParamsAux_eq_map] at hg
    obtain ⟨kv, hkv, rfl⟩ := List.mem_map.mp hg
    have hps : p = kv.2 := by simpa [mkGroup] using hp
    refine ⟨kv.1, ?_, ?_⟩
    · rw [hps]
      exact firstTrainableAux_find _ _ _ hkv
    · rfl

theorem build_optimizer_first_occurrence_semantics_witness :
    ((Trainer.buildOptimizerParams cfgSample paramsSample).map ParamGroup.params
        = (firstTrainableOccs paramsSample).map (fun kv => [kv.2]))
    ∧ (∃ key, paramsSample.find? (fun kv => kv.2 == (⟨0, true⟩ : Param)) = some (key, ⟨0, true⟩)
        ∧ groupSample.lr
            = (if hasBackbone key then
                 cfgSample.SOLVER_BASE_LR * cfgSample.SOLVER_BACKBONE_MULTIPLIER
               else cfgSample.SOLVER_BASE_LR)) :=
  ⟨(build_optimizer_first_occurrence_semantics cfgSample paramsSample).1,
   (build_optimizer_first_occurrence_semantics cfgSample paramsSample).2 groupSample (by decide)
     ⟨0, true⟩ (by decide)⟩
